import Mathlib

/-!
Shallow embedding of the task-manager-microservices repository
(`src/task-service/main.py` and `src/user-service/main.py`) and proofs
about its data model and operations.

The task service stores per-user tasks in a relational table, caches a
user's task listing in a shared key-value store, resolves the caller's
identity from a server-side session entry, and sends best-effort email
notifications on mutations.  The user service registers users, verifies
passwords and mints signed bearer tokens.

Modelling conventions:
- Database rows become structures; the tasks table is a `List Task`
  together with the next SERIAL id.  SQL timestamps (`NOW()`) become a
  `now : Nat` parameter passed to each operation.
- The Redis cache is an association list keyed by user id; `SETEX`
  records the value together with the TTL that was set.
- An HTTP rejection (`HTTPException`) becomes an `HErr` value carrying
  the status code and the detail string; handlers return
  `Except HErr α × State`, threading the post-state through both the
  success and the failure branch (a raised `HTTPException` inside the
  `with engine.begin()` block skips the statements after the block, so
  the failure branch leaves the state unchanged).
- Out-of-scope primitives (bcrypt hashing, JWT signing) are modelled as
  injective tagging: a signed token is its claims paired with the secret
  it was signed with; verification compares secrets.
-/

namespace TaskService

/-- One row of the `tasks` table
(`id SERIAL, user_id, title, status, created_at, updated_at`). -/
structure Task where
  id : Nat
  user_id : Nat
  title : String
  status : String
  created_at : Nat
  updated_at : Nat
deriving DecidableEq, Repr

/-- The `tasks` table: existing rows plus the next SERIAL id. -/
structure TaskDB where
  tasks : List Task
  nextId : Nat
deriving DecidableEq, Repr

/-- A cached listing as written by `redis_client.setex(key, 30, json.dumps(rows))`:
the serialized rows together with the TTL the entry was stored with. -/
structure CachedList where
  value : List Task
  ttl : Nat
deriving DecidableEq, Repr

/-- The Redis task-listing cache, keyed by user id (`tasks:{user_id}`). -/
abbrev Cache := List (Nat × CachedList)

/-- Combined state touched by the task endpoints: the database plus the cache. -/
structure SvcState where
  db : TaskDB
  cache : Cache
deriving DecidableEq, Repr

/-- An `HTTPException(status_code, detail)`. -/
structure HErr where
  code : Nat
  detail : String
deriving DecidableEq, Repr

/-- Redis `GET tasks:{uid}` on the model cache. -/
def cacheLookup (uid : Nat) (c : Cache) : Option CachedList :=
  List.lookup uid c

/-- `invalidate_tasks_cache`: Redis `DEL tasks:{uid}`. -/
def invalidate_tasks_cache (uid : Nat) (c : Cache) : Cache :=
  c.filter (fun p => !(p.1 == uid))

/-- Redis `SETEX tasks:{uid} ttl v`: overwrite the entry for `uid`. -/
def cacheSet (uid : Nat) (v : List Task) (ttl : Nat) (c : Cache) : Cache :=
  (uid, ⟨v, ttl⟩) :: invalidate_tasks_cache uid c

/-- The comparison used by `ORDER BY created_at DESC`: newest first. -/
def newerEq (a b : Task) : Prop := b.created_at ≤ a.created_at

instance : DecidableRel newerEq := fun a b =>
  inferInstanceAs (Decidable (b.created_at ≤ a.created_at))

instance : IsTotal Task newerEq :=
  ⟨fun a b => (Nat.le_total b.created_at a.created_at).imp id id⟩

instance : IsTrans Task newerEq :=
  ⟨fun _ _ _ hab hbc => Nat.le_trans hbc hab⟩

/-- `SELECT ... FROM tasks WHERE user_id = :uid ORDER BY created_at DESC`. -/
def queryTasksDesc (db : TaskDB) (uid : Nat) : List Task :=
  List.insertionSort newerEq (db.tasks.filter (fun t => t.user_id == uid))

/-- `GET /api/tasks` (`list_tasks`): serve the cached listing when present,
else query the database, cache the result for 30 seconds, and return it. -/
def list_tasks (uid : Nat) (s : SvcState) : List Task × SvcState :=
  match cacheLookup uid s.cache with
  | some cached => (cached.value, s)
  | none =>
    let rows := queryTasksDesc s.db uid
    (rows, ⟨s.db, cacheSet uid rows 30 s.cache⟩)

/-- `POST /api/tasks` (`create_task`): insert a row with status `'open'`
and database-assigned id and timestamps, then invalidate the caller's
cached listing. -/
def create_task (now uid : Nat) (title : String) (s : SvcState) :
    Task × SvcState :=
  let row : Task := ⟨s.db.nextId, uid, title, "open", now, now⟩
  (row, ⟨⟨s.db.tasks ++ [row], s.db.nextId + 1⟩,
         invalidate_tasks_cache uid s.cache⟩)

/-- The row predicate of `WHERE id = :tid AND user_id = :uid`. -/
def rowMatch (tid uid : Nat) (t : Task) : Bool :=
  t.id == tid && t.user_id == uid

/-- `PATCH /api/tasks/{task_id}/done` (`mark_done`): update every row
matching `(id, user_id)` to status `'done'`, return the first updated row,
raise 404 when no row matched (leaving everything unchanged), and
invalidate the caller's cached listing only on success. -/
def mark_done (now tid uid : Nat) (s : SvcState) :
    Except HErr Task × SvcState :=
  match s.db.tasks.filter (rowMatch tid uid) with
  | [] => (.error ⟨404, "Task not found"⟩, s)
  | r :: _ =>
    let tasks := s.db.tasks.map (fun t =>
      if rowMatch tid uid t then { t with status := "done", updated_at := now }
      else t)
    (.ok { r with status := "done", updated_at := now },
     ⟨⟨tasks, s.db.nextId⟩, invalidate_tasks_cache uid s.cache⟩)

/-- `PATCH /api/tasks/{task_id}/reactivate` (`reactivate`): like
`mark_done` but sets status `'open'`. -/
def reactivate (now tid uid : Nat) (s : SvcState) :
    Except HErr Task × SvcState :=
  match s.db.tasks.filter (rowMatch tid uid) with
  | [] => (.error ⟨404, "Task not found"⟩, s)
  | r :: _ =>
    let tasks := s.db.tasks.map (fun t =>
      if rowMatch tid uid t then { t with status := "open", updated_at := now }
      else t)
    (.ok { r with status := "open", updated_at := now },
     ⟨⟨tasks, s.db.nextId⟩, invalidate_tasks_cache uid s.cache⟩)

/-- `DELETE /api/tasks/{task_id}` (`delete_task`): delete every row
matching `(id, user_id)`, invalidate the caller's cached listing, and
return 204.  The handler never inspects `result.rowcount`, so it succeeds
even when no row matched. -/
def delete_task (tid uid : Nat) (s : SvcState) :
    Except HErr Unit × SvcState :=
  (.ok (),
   ⟨⟨s.db.tasks.filter (fun t => !(rowMatch tid uid t)), s.db.nextId⟩,
    invalidate_tasks_cache uid s.cache⟩)

/-! ### Session resolution (`get_user_id`) -/

/-- The shared Redis session store: keys `sid:<session_id>` mapped to
string-encoded user ids.  TTL eviction removes the key, so an expired
session is an absent key. -/
abbrev SessionStore := List (String × String)

/-- Decimal digits read as a number. -/
def digitsToNat (l : List Char) : Nat :=
  l.foldl (fun n c => n * 10 + (c.toNat - 48)) 0

/-- A nonempty run of decimal digits, or `none`. -/
def parseDigits (l : List Char) : Option Nat :=
  if l.isEmpty || !(l.all Char.isDigit) then none else some (digitsToNat l)

/-- An optional sign followed by a nonempty run of digits. -/
def parseSigned (l : List Char) : Option Int :=
  match l with
  | [] => none
  | c :: rest =>
    if c = '-' then (parseDigits rest).map (fun n => -(n : Int))
    else if c = '+' then (parseDigits rest).map (fun n => (n : Int))
    else (parseDigits l).map (fun n => (n : Int))

/-- Strip surrounding whitespace. -/
def trimChars (l : List Char) : List Char :=
  ((l.dropWhile Char.isWhitespace).reverse.dropWhile Char.isWhitespace).reverse

/-- Python `int(s)` on a string: optional surrounding whitespace, an
optional sign, then decimal digits.  `none` models the `ValueError`. -/
def pyInt (s : String) : Option Int :=
  parseSigned (trimChars s.data)

/-- `get_user_id`: read the `sid` cookie (absent or empty is falsy),
look up `sid:<sid>` in Redis (absent or empty value is falsy), and parse
the stored value as an integer; every failure is a 401. -/
def get_user_id (store : SessionStore) (sidCookie : Option String) :
    Except HErr Int :=
  match sidCookie with
  | none => .error ⟨401, "No session"⟩
  | some sid =>
    if sid = "" then .error ⟨401, "No session"⟩
    else
      match store.lookup ("sid:" ++ sid) with
      | none => .error ⟨401, "Session expired"⟩
      | some v =>
        if v = "" then .error ⟨401, "Session expired"⟩
        else
          match pyInt v with
          | some n => .ok n
          | none => .error ⟨401, "Invalid session"⟩

/-! ### Email notification (`send_email_if_configured`) -/

/-- The SMTP configuration surface the email helper consults. -/
structure SmtpConfig where
  host : String
  port : Nat
  user : String
  pass : String
deriving DecidableEq, Repr

/-- Outcome of the external SMTP transport for one send attempt
(connection, auth and timeout failures all surface as a raised
exception). -/
inductive SendOutcome where
  | delivered
  | raised (e : String)
deriving DecidableEq, Repr

/-- What one call of `send_email_if_configured` did. -/
inductive EmailResult where
  | skipped
  | sent
  | raised (e : String)
deriving DecidableEq, Repr

/-- `send_email_if_configured`: silently skip when no SMTP host is
configured or no recipient is available; otherwise attempt a single
synchronous send whose outcome is the transport's. -/
def send_email_if_configured (cfg : SmtpConfig) (to_email : String)
    (subject body : String) (net : SendOutcome) : EmailResult :=
  if cfg.host = "" || to_email = "" then .skipped
  else
    match net with
    | .delivered => .sent
    | .raised e => .raised e

/-- `try: ... except Exception: pass` around the email attempt: whatever
the attempt's result — skipped, sent, or a raised exception — the
handler continues with `x`. -/
def bestEffort (r : EmailResult) (x : α) : α :=
  match r with
  | .skipped => x
  | .sent => x
  | .raised _ => x

/-- `create_task` endpoint including its best-effort notification step:
the email attempt is wrapped in `try ... except Exception: pass`, so its
result is discarded whatever it is. -/
def create_task_full (now uid : Nat) (title : String) (cfg : SmtpConfig)
    (userEmail : Option String) (net : SendOutcome) (s : SvcState) :
    Task × SvcState :=
  let (row, s1) := create_task now uid title s
  bestEffort
    (send_email_if_configured cfg (userEmail.getD "") "Task created"
      ("Your task " ++ row.title ++ " was created.") net)
    (row, s1)

/-- `mark_done` endpoint including its best-effort notification step;
the email is only attempted when the update succeeded (a 404 raised in
the database block skips the rest of the handler). -/
def mark_done_full (now tid uid : Nat) (cfg : SmtpConfig)
    (userEmail : Option String) (net : SendOutcome) (s : SvcState) :
    Except HErr Task × SvcState :=
  match mark_done now tid uid s with
  | (.error e, s1) => (.error e, s1)
  | (.ok row, s1) =>
    bestEffort
      (send_email_if_configured cfg (userEmail.getD "") "Task completed"
        ("Your task " ++ row.title ++ " was marked done.") net)
      (.ok row, s1)

/-- `reactivate` endpoint including its best-effort notification step. -/
def reactivate_full (now tid uid : Nat) (cfg : SmtpConfig)
    (userEmail : Option String) (net : SendOutcome) (s : SvcState) :
    Except HErr Task × SvcState :=
  match reactivate now tid uid s with
  | (.error e, s1) => (.error e, s1)
  | (.ok row, s1) =>
    bestEffort
      (send_email_if_configured cfg (userEmail.getD "") "Task reactivated"
        ("Your task " ++ row.title ++ " was reactivated.") net)
      (.ok row, s1)

end TaskService

namespace UserService

open TaskService (HErr)

/-- One row of the `users` table. -/
structure UserRow where
  id : Nat
  username : String
  email : String
  password_hash : String
  created_at : Nat
deriving DecidableEq, Repr

/-- The `users` table: rows plus the next SERIAL id. -/
structure UserDB where
  users : List UserRow
  nextId : Nat
deriving DecidableEq, Repr

/-- Model of the out-of-scope bcrypt primitive (`get_password_hash`):
an injective tagging of the password. -/
def get_password_hash (password : String) : String :=
  "bcrypt$" ++ password

/-- Model of `verify_password`: the hash matches exactly the hash of the
plain password. -/
def verify_password (plain hashed : String) : Bool :=
  hashed == get_password_hash plain

/-- The claims embedded in a token: subject user id and absolute expiry
(minutes since the epoch of the model clock). -/
structure TokenClaims where
  sub : Nat
  exp : Nat
deriving DecidableEq, Repr

/-- Model of a JWT signed with `SECRET_KEY`: the claims together with
the secret they were signed with (signature verification compares
secrets). -/
structure SignedToken where
  claims : TokenClaims
  secret : String
deriving DecidableEq, Repr

/-- `ACCESS_TOKEN_EXPIRE_MINUTES = 30`. -/
def ACCESS_TOKEN_EXPIRE_MINUTES : Nat := 30

/-- `create_access_token(data, expires_delta)`: absolute expiry is
`now + expires_delta`, defaulting to 15 minutes when no delta is given;
signed with the process-wide secret. -/
def create_access_token (sub : Nat) (expires_delta : Option Nat)
    (now : Nat) (secret : String) : SignedToken :=
  ⟨⟨sub, now + expires_delta.getD 15⟩, secret⟩

/-- Verification as performed by `jwt.decode` in `get_current_user`:
fails on a signature minted under a different secret, fails `Expired`
once the embedded expiry has passed, otherwise yields the subject.
There is no revocation list, so time and the secret are the only
inputs. -/
inductive VerifyError where
  | invalid
  | expired
deriving DecidableEq, Repr

/-- Decode and validate a token at time `now`. -/
def verify_token (tok : SignedToken) (secret : String) (now : Nat) :
    Except VerifyError Nat :=
  if tok.secret ≠ secret then .error .invalid
  else if tok.claims.exp ≤ now then .error .expired
  else .ok tok.claims.sub

/-- The `Token` response body: the encoded JWT plus `token_type`. -/
structure TokenOut where
  access_token : SignedToken
  token_type : String
deriving DecidableEq, Repr

/-- `POST /api/register`: reject with 400 when the email or username
already exists, otherwise insert the user and return a bearer token for
the new id. -/
def register (db : UserDB) (username email password : String)
    (now : Nat) (secret : String) : Except HErr TokenOut × UserDB :=
  if db.users.any (fun u => u.email == email || u.username == username) then
    (.error ⟨400, "Email or username already registered"⟩, db)
  else
    let uid := db.nextId
    let db1 : UserDB :=
      ⟨db.users ++ [⟨uid, username, email, get_password_hash password, now⟩],
       uid + 1⟩
    (.ok ⟨create_access_token uid (some ACCESS_TOKEN_EXPIRE_MINUTES) now secret,
          "bearer"⟩, db1)

/-- `POST /api/login`: look up the user by email and check the password;
reject with 401 otherwise. -/
def login (db : UserDB) (email password : String) (now : Nat)
    (secret : String) : Except HErr TokenOut :=
  match db.users.find? (fun u => u.email == email) with
  | none => .error ⟨401, "Incorrect email or password"⟩
  | some u =>
    if verify_password password u.password_hash then
      .ok ⟨create_access_token u.id (some ACCESS_TOKEN_EXPIRE_MINUTES) now secret,
           "bearer"⟩
    else .error ⟨401, "Incorrect email or password"⟩

/-- The HTTP status of the register endpoint's response: the route has no
`status_code` parameter, so a successful POST returns FastAPI's default
200; a raised `HTTPException` returns its own code. -/
def registerHttpStatus (r : Except HErr TokenOut) : Nat :=
  match r with
  | .ok _ => 200
  | .error e => e.code

end UserService

open TaskService UserService

deriving instance DecidableEq for Except

/-! ### Helper lemmas -/

theorem cacheLookup_invalidate (uid : Nat) (c : Cache) :
    cacheLookup uid (invalidate_tasks_cache uid c) = none := by
  induction c with
  | nil => rfl
  | cons p c ih =>
    rcases p with ⟨k, v⟩
    simp only [invalidate_tasks_cache, List.filter_cons] at ih ⊢
    by_cases h : k = uid
    · simp [h] at ih ⊢
      exact ih
    · simp only [cacheLookup, List.lookup] at ih ⊢
      have hne : (uid == k) = false := by simp [Ne.symm h]
      simp [h, hne, ih]
      exact ⟨fun he => h he.symm, fun a b _ ha hua => ha hua.symm⟩

/-! ### C1 -/

/-- C1 as stated is false for the delete operation: with a store holding
exactly one task, owned by user 2, a delete addressed at that task while
authenticated as user 1 matches zero rows yet succeeds (the handler
returns 204 without inspecting the rowcount) instead of failing with a
NotFound rejection. -/
theorem C1_counterexample :
    (delete_task 1 1 ⟨⟨[⟨1, 2, "t", "open", 0, 0⟩], 2⟩, []⟩).1 = .ok () ∧
    (⟨1, 2, "t", "open", 0, 0⟩ : Task).user_id ≠ 1 := by
  exact ⟨rfl, by decide⟩

/-- C1 amended: when no row matches `(task id, caller user id)` — the
target task is owned by another user, or no task with that id exists —
`mark_done` and `reactivate` fail with the fixed 404 "Task not found"
rejection and leave the whole state unchanged; `delete_task` leaves the
task store unchanged but succeeds with 204, its response likewise
revealing nothing about the task's existence. -/
theorem C1_amended (s : SvcState) (now tid uid : Nat)
    (h : ∀ t ∈ s.db.tasks, rowMatch tid uid t = false) :
    mark_done now tid uid s = (.error ⟨404, "Task not found"⟩, s) ∧
    reactivate now tid uid s = (.error ⟨404, "Task not found"⟩, s) ∧
    (delete_task tid uid s).1 = .ok () ∧
    (delete_task tid uid s).2.db = s.db := by
  have hfil : s.db.tasks.filter (rowMatch tid uid) = [] :=
    List.filter_eq_nil_iff.mpr (by intro a ha; simp [h a ha])
  have hkeep : s.db.tasks.filter (fun t => !(rowMatch tid uid t)) = s.db.tasks :=
    List.filter_eq_self.mpr (by intro a ha; simp [h a ha])
  refine ⟨?_, ?_, rfl, ?_⟩
  · simp [mark_done, hfil]
  · simp [reactivate, hfil]
  · simp [delete_task, hkeep]

/-- Witness for C1: concrete run of the amended claim, with a single
task owned by user 2 and the caller authenticated as user 1. -/
theorem C1_amended_witness :
    mark_done 0 1 1 ⟨⟨[⟨1, 2, "t", "open", 0, 0⟩], 2⟩, []⟩ =
      (.error ⟨404, "Task not found"⟩, ⟨⟨[⟨1, 2, "t", "open", 0, 0⟩], 2⟩, []⟩) :=
  (C1_amended ⟨⟨[⟨1, 2, "t", "open", 0, 0⟩], 2⟩, []⟩ 0 1 1 (by decide)).1

/-! ### C2 -/

/-- C2: for each mutation endpoint, the caller's cached listing is
deleted in the post-state exactly when the endpoint succeeded, and a
failed mutation (the 404 of `mark_done`/`reactivate`) leaves the whole
state — cache included — untouched.  `create_task` and `delete_task`
always succeed, and always invalidate.  Invalidations happen on the
state threaded into the response, hence before the response is
returned. -/
theorem C2_theorem (now tid uid : Nat) (title : String) (s : SvcState) :
    cacheLookup uid ((create_task now uid title s).2).cache = none ∧
    ((mark_done now tid uid s).1.isOk = true →
      cacheLookup uid ((mark_done now tid uid s).2).cache = none) ∧
    ((mark_done now tid uid s).1.isOk = false →
      (mark_done now tid uid s).2 = s) ∧
    ((reactivate now tid uid s).1.isOk = true →
      cacheLookup uid ((reactivate now tid uid s).2).cache = none) ∧
    ((reactivate now tid uid s).1.isOk = false →
      (reactivate now tid uid s).2 = s) ∧
    cacheLookup uid ((delete_task tid uid s).2).cache = none := by
  refine ⟨?_, ?_, ?_, ?_, ?_, ?_⟩
  · simpa [create_task] using cacheLookup_invalidate uid s.cache
  · intro hok
    cases hfil : s.db.tasks.filter (rowMatch tid uid) with
    | nil => simp [mark_done, hfil, Except.isOk, Except.toBool] at hok
    | cons r rest =>
      simpa [mark_done, hfil] using cacheLookup_invalidate uid s.cache
  · intro herr
    cases hfil : s.db.tasks.filter (rowMatch tid uid) with
    | nil => simp [mark_done, hfil]
    | cons r rest => simp [mark_done, hfil, Except.isOk, Except.toBool] at herr
  · intro hok
    cases hfil : s.db.tasks.filter (rowMatch tid uid) with
    | nil => simp [reactivate, hfil, Except.isOk, Except.toBool] at hok
    | cons r rest =>
      simpa [reactivate, hfil] using cacheLookup_invalidate uid s.cache
  · intro herr
    cases hfil : s.db.tasks.filter (rowMatch tid uid) with
    | nil => simp [reactivate, hfil]
    | cons r rest => simp [reactivate, hfil, Except.isOk, Except.toBool] at herr
  · simpa [delete_task] using cacheLookup_invalidate uid s.cache

/-- Witness for C2: a concrete failed `mark_done` (no task with id 5)
leaves the state — in particular a populated cache entry for user 1 —
untouched. -/
theorem C2_witness :
    (mark_done 0 5 1
        ⟨⟨[⟨1, 1, "t", "open", 0, 0⟩], 2⟩, [(1, ⟨[], 30⟩)]⟩).2 =
      ⟨⟨[⟨1, 1, "t", "open", 0, 0⟩], 2⟩, [(1, ⟨[], 30⟩)]⟩ :=
  (C2_theorem 0 5 1 "x" ⟨⟨[⟨1, 1, "t", "open", 0, 0⟩], 2⟩, [(1, ⟨[], 30⟩)]⟩).2.2.1
    (by decide)

/-! ### C3 -/

/-- C3 as stated is false in its "no distinguishing detail" part: the
rejection for an absent (or TTL-evicted) key carries detail
"Session expired" while the rejection for a malformed stored value
carries the distinct detail "Invalid session", so the 401 responses do
distinguish absence from malformation. -/
theorem C3_counterexample :
    get_user_id [] (some "s") = .error ⟨401, "Session expired"⟩ ∧
    get_user_id [("sid:s", "abc")] (some "s") = .error ⟨401, "Invalid session"⟩ ∧
    (⟨401, "Session expired"⟩ : HErr) ≠ ⟨401, "Invalid session"⟩ := by
  exact ⟨by decide, by decide, by decide⟩

/-- C3 amended: for a non-empty session id, resolution returns `n`
exactly when the store holds a value under `sid:<sid>` that Python's
`int` parses as `n` (so a user id is never produced by default or by
guess); an absent key — which is also what TTL eviction leaves — yields
the fixed 401 "Session expired" rejection, and every failure whatsoever
carries status 401; but the malformed-value rejection carries a detail
string distinct from the absent-key one. -/
theorem C3_amended (store : SessionStore) (sid : String) (hsid : sid ≠ "") :
    (∀ v : String, ∀ n : Int,
      store.lookup ("sid:" ++ sid) = some v → pyInt v = some n →
        get_user_id store (some sid) = .ok n) ∧
    (store.lookup ("sid:" ++ sid) = none →
      get_user_id store (some sid) = .error ⟨401, "Session expired"⟩) ∧
    (∀ e, get_user_id store (some sid) = .error e → e.code = 401) ∧
    (∀ n, get_user_id store (some sid) = .ok n →
      ∃ v, store.lookup ("sid:" ++ sid) = some v ∧ pyInt v = some n) := by
  refine ⟨?_, ?_, ?_, ?_⟩
  · intro v n hv hn
    by_cases hv0 : v = ""
    · rw [hv0] at hn
      simp [pyInt, trimChars, parseSigned] at hn
    · simp [get_user_id, hsid, hv, hv0, hn]
  · intro hl
    simp [get_user_id, hsid, hl]
  · intro e he
    cases hl : store.lookup ("sid:" ++ sid) with
    | none =>
      have hval : get_user_id store (some sid) = .error ⟨401, "Session expired"⟩ := by
        simp [get_user_id, hsid, hl]
      rw [hval] at he
      injection he with h
      rw [← h]
    | some v =>
      by_cases hv0 : v = ""
      · have hval : get_user_id store (some sid) = .error ⟨401, "Session expired"⟩ := by
          simp [get_user_id, hsid, hl, hv0]
        rw [hval] at he
        injection he with h
        rw [← h]
      · cases hp : pyInt v with
        | none =>
          have hval : get_user_id store (some sid) = .error ⟨401, "Invalid session"⟩ := by
            simp [get_user_id, hsid, hl, hv0, hp]
          rw [hval] at he
          injection he with h
          rw [← h]
        | some m =>
          have hval : get_user_id store (some sid) = .ok m := by
            simp [get_user_id, hsid, hl, hv0, hp]
          rw [hval] at he
          simp at he
  · intro n he
    cases hl : store.lookup ("sid:" ++ sid) with
    | none =>
      have hval : get_user_id store (some sid) = .error ⟨401, "Session expired"⟩ := by
        simp [get_user_id, hsid, hl]
      rw [hval] at he
      simp at he
    | some v =>
      by_cases hv0 : v = ""
      · have hval : get_user_id store (some sid) = .error ⟨401, "Session expired"⟩ := by
          simp [get_user_id, hsid, hl, hv0]
        rw [hval] at he
        simp at he
      · cases hp : pyInt v with
        | none =>
          have hval : get_user_id store (some sid) = .error ⟨401, "Invalid session"⟩ := by
            simp [get_user_id, hsid, hl, hv0, hp]
          rw [hval] at he
          simp at he
        | some m =>
          have hval : get_user_id store (some sid) = .ok m := by
            simp [get_user_id, hsid, hl, hv0, hp]
          rw [hval] at he
          injection he with h
          exact ⟨v, rfl, by rw [hp, h]⟩

/-- Witness for C3 amended: a store mapping session "s" to "7" resolves
to user 7. -/
theorem C3_amended_witness :
    get_user_id [("sid:s", "7")] (some "s") = .ok 7 :=
  (C3_amended [("sid:s", "7")] "s" (by decide)).1 "7" 7 (by decide) (by decide)

/-! ### C4 -/

/-- C4: under the SERIAL-id store invariant (every existing row's id is
below the next id), creating a task and then immediately listing the
creator's tasks returns the created task exactly once, with status
"open"; the create invalidated the cached listing, so that next read
queries the store and reflects the write. -/
theorem C4_theorem (s : SvcState) (now uid : Nat) (title : String)
    (hfresh : ∀ t ∈ s.db.tasks, t.id < s.db.nextId) :
    ((create_task now uid title s).1).status = "open" ∧
    ((list_tasks uid ((create_task now uid title s).2)).1).count
      (create_task now uid title s).1 = 1 := by
  refine ⟨rfl, ?_⟩
  have hcache : cacheLookup uid ((create_task now uid title s).2).cache = none := by
    simpa [create_task] using cacheLookup_invalidate uid s.cache
  set r : Task := ⟨s.db.nextId, uid, title, "open", now, now⟩ with hr
  have hfst : (create_task now uid title s).1 = r := rfl
  have hdb : ((create_task now uid title s).2).db =
      ⟨s.db.tasks ++ [r], s.db.nextId + 1⟩ := rfl
  have hlist : (list_tasks uid ((create_task now uid title s).2)).1 =
      queryTasksDesc ⟨s.db.tasks ++ [r], s.db.nextId + 1⟩ uid := by
    simp [list_tasks, hcache, hdb]
  rw [hfst, hlist, queryTasksDesc]
  have hperm := List.perm_insertionSort newerEq
    ((s.db.tasks ++ [r]).filter (fun t => t.user_id == uid))
  rw [hperm.count_eq]
  rw [List.filter_append, List.count_append]
  have hnotmem : r ∉ s.db.tasks.filter (fun t => t.user_id == uid) := by
    intro hmem
    have hin : r ∈ s.db.tasks := (List.mem_filter.mp hmem).1
    have := hfresh r hin
    simp [hr] at this
  rw [List.count_eq_zero.mpr hnotmem]
  simp [hr]

/-- Witness for C4: creating a task in the empty store and listing. -/
theorem C4_witness :
    ((create_task 0 1 "a" ⟨⟨[], 1⟩, []⟩).1).status = "open" ∧
    ((list_tasks 1 ((create_task 0 1 "a" ⟨⟨[], 1⟩, []⟩).2)).1).count
      (create_task 0 1 "a" ⟨⟨[], 1⟩, []⟩).1 = 1 :=
  C4_theorem ⟨⟨[], 1⟩, []⟩ 0 1 "a" (by decide)

/-! ### C5 -/

/-- C5: listing with a populated cache returns the cached value
verbatim and changes nothing; listing with an empty cache returns the
store's rows for that user — exactly those rows, sorted newest first —
and stores that result under the user's cache key with TTL 30. -/
theorem C5_theorem (uid : Nat) (s : SvcState) :
    (∀ e, cacheLookup uid s.cache = some e →
      (list_tasks uid s).1 = e.value ∧ (list_tasks uid s).2 = s) ∧
    (cacheLookup uid s.cache = none →
      (list_tasks uid s).1 = queryTasksDesc s.db uid ∧
      List.Sorted newerEq (list_tasks uid s).1 ∧
      ((list_tasks uid s).1).Perm
        (s.db.tasks.filter (fun t => t.user_id == uid)) ∧
      cacheLookup uid ((list_tasks uid s).2).cache =
        some ⟨(list_tasks uid s).1, 30⟩) := by
  constructor
  · intro e he
    constructor
    · simp [list_tasks, he]
    · simp [list_tasks, he]
  · intro hnone
    have h1 : (list_tasks uid s).1 = queryTasksDesc s.db uid := by
      simp [list_tasks, hnone]
    refine ⟨h1, ?_, ?_, ?_⟩
    · rw [h1, queryTasksDesc]
      exact List.sorted_insertionSort newerEq _
    · rw [h1, queryTasksDesc]
      exact List.perm_insertionSort newerEq _
    · rw [h1]
      have hnone2 : List.lookup uid s.cache = none := hnone
      simp [list_tasks, cacheLookup, cacheSet, hnone2, List.lookup]

/-! ### C6 -/

/-- C6: every token minted at registration or login embeds the caller's
user id as subject and an absolute expiry exactly 30 minutes after
issuance; verification succeeds at every instant strictly before the
expiry (nothing can revoke it early — time and the signing secret are
verification's only inputs) and fails `Expired` from the expiry on. -/
theorem C6_theorem (db : UserDB) (uname email pwd secret : String) (now : Nat)
    (tok : TokenOut)
    (h : (register db uname email pwd now secret).1 = .ok tok ∨
         login db email pwd now secret = .ok tok) :
    tok.access_token.claims.exp = now + 30 ∧
    (∀ t, t < now + 30 →
      verify_token tok.access_token secret t = .ok tok.access_token.claims.sub) ∧
    (∀ t, now + 30 ≤ t →
      verify_token tok.access_token secret t = .error .expired) ∧
    ((register db uname email pwd now secret).1 = .ok tok →
      tok.access_token.claims.sub = db.nextId) ∧
    (∀ u, db.users.find? (fun x => x.email == email) = some u →
      login db email pwd now secret = .ok tok →
      tok.access_token.claims.sub = u.id) := by
  have hs : tok.access_token.secret = secret ∧
      tok.access_token.claims.exp = now + 30 := by
    rcases h with hr | hl
    · cases hdup : db.users.any (fun u => u.email == email || u.username == uname) with
      | true => simp [register, hdup] at hr
      | false =>
        simp [register, hdup] at hr
        rw [← hr]
        exact ⟨rfl, rfl⟩
    · cases hf : db.users.find? (fun x => x.email == email) with
      | none => simp [login, hf] at hl
      | some u =>
        by_cases hvp : verify_password pwd u.password_hash
        · simp [login, hf, hvp] at hl
          rw [← hl]
          exact ⟨rfl, rfl⟩
        · simp [login, hf, hvp] at hl
  refine ⟨hs.2, ?_, ?_, ?_, ?_⟩
  · intro t ht
    have hnle : ¬ (tok.access_token.claims.exp ≤ t) := by
      rw [hs.2]; omega
    simp [verify_token, hs.1, hnle]
  · intro t ht
    have hle : tok.access_token.claims.exp ≤ t := by rw [hs.2]; omega
    simp [verify_token, hs.1, hle]
  · intro hr
    cases hdup : db.users.any (fun u => u.email == email || u.username == uname) with
    | true => simp [register, hdup] at hr
    | false =>
      simp [register, hdup] at hr
      rw [← hr]
      rfl
  · intro u hf hl
    by_cases hvp : verify_password pwd u.password_hash
    · simp [login, hf, hvp] at hl
      rw [← hl]
      rfl
    · simp [login, hf, hvp] at hl

/-- Witness for C6: the token minted by registering the first user at
time 0 with secret "k" has subject 1 and expiry 30, and still verifies
at time 29. -/
theorem C6_witness :
    verify_token ⟨⟨1, 30⟩, "k"⟩ "k" 29 = .ok 1 :=
  (C6_theorem ⟨[], 1⟩ "alice" "a@x.com" "p1" "k" 0 ⟨⟨⟨1, 30⟩, "k"⟩, "bearer"⟩
    (Or.inl (by decide))).2.1 29 (by decide)

/-! ### C7 -/

/-- C7 as stated is false in its status code: a successful registration
returns FastAPI's default 200 (the route declares no `status_code`),
not 201. -/
theorem C7_counterexample :
    registerHttpStatus ((register ⟨[], 1⟩ "alice" "a@x.com" "p1" 0 "k").1) = 200 ∧
    (200 : Nat) ≠ 201 :=
  ⟨by decide, by decide⟩

/-- C7 amended: when the username or email already exists, registration
fails with a 400 rejection and the user table is unchanged (and the
error branch carries no token); otherwise a new user row is appended and
the response is a 200 carrying a bearer token whose subject is the new
user's id. -/
theorem C7_amended (db : UserDB) (uname email pwd secret : String) (now : Nat) :
    (db.users.any (fun u => u.email == email || u.username == uname) = true →
      (register db uname email pwd now secret).1 =
        .error ⟨400, "Email or username already registered"⟩ ∧
      (register db uname email pwd now secret).2 = db) ∧
    (db.users.any (fun u => u.email == email || u.username == uname) = false →
      ∃ tok, (register db uname email pwd now secret).1 = .ok tok ∧
        tok.token_type = "bearer" ∧
        tok.access_token.claims.sub = db.nextId ∧
        registerHttpStatus ((register db uname email pwd now secret).1) = 200 ∧
        (register db uname email pwd now secret).2.users =
          db.users ++ [⟨db.nextId, uname, email, get_password_hash pwd, now⟩]) := by
  constructor
  · intro hdup
    constructor
    · simp [register, hdup]
    · simp [register, hdup]
  · intro hdup
    refine ⟨⟨create_access_token db.nextId (some ACCESS_TOKEN_EXPIRE_MINUTES) now secret,
      "bearer"⟩, ?_, rfl, rfl, ?_, ?_⟩
    · simp [register, hdup]
    · simp [registerHttpStatus, register, hdup]
    · simp [register, hdup]

/-- Witness for C7 amended: re-registering alice against a table that
already holds alice fails with the 400 rejection and leaves the table
unchanged. -/
theorem C7_amended_witness :
    (register ⟨[⟨1, "alice", "a@x.com", "bcrypt$p1", 0⟩], 2⟩
        "alice" "a@x.com" "p2" 5 "k").1 =
      .error ⟨400, "Email or username already registered"⟩ :=
  ((C7_amended ⟨[⟨1, "alice", "a@x.com", "bcrypt$p1", 0⟩], 2⟩
      "alice" "a@x.com" "p2" "k" 5).1 (by decide)).1

/-- Witness for C5: a populated cache entry for user 1 is returned
verbatim, and the state is unchanged. -/
theorem C5_witness :
    (list_tasks 1 ⟨⟨[], 1⟩, [(1, ⟨[⟨9, 1, "c", "open", 0, 0⟩], 30⟩)]⟩).1 =
      [⟨9, 1, "c", "open", 0, 0⟩] :=
  ((C5_theorem 1 ⟨⟨[], 1⟩, [(1, ⟨[⟨9, 1, "c", "open", 0, 0⟩], 30⟩)]⟩).1
    ⟨[⟨9, 1, "c", "open", 0, 0⟩], 30⟩ (by decide)).1

/-! ### C8 -/

/-- C8: marking an already-done task done again, as its owner, succeeds
without error, returns a row with status "done", and leaves every row
with that (id, user id) at status "done". -/
theorem C8_theorem (s : SvcState) (now : Nat) (t : Task)
    (hmem : t ∈ s.db.tasks) (hdone : t.status = "done") :
    ∃ r s2, mark_done now t.id t.user_id s = (.ok r, s2) ∧
      r.status = "done" ∧
      ∀ t2 ∈ s2.db.tasks, t2.id = t.id → t2.user_id = t.user_id →
        t2.status = "done" := by
  have hrm : rowMatch t.id t.user_id t = true := by simp [rowMatch]
  have hmemf : t ∈ s.db.tasks.filter (rowMatch t.id t.user_id) :=
    List.mem_filter.mpr ⟨hmem, hrm⟩
  cases hfil : s.db.tasks.filter (rowMatch t.id t.user_id) with
  | nil => rw [hfil] at hmemf; cases hmemf
  | cons r0 rest =>
    refine ⟨{ r0 with status := "done", updated_at := now },
      ⟨⟨s.db.tasks.map (fun x =>
          if rowMatch t.id t.user_id x
          then { x with status := "done", updated_at := now }
          else x), s.db.nextId⟩,
        invalidate_tasks_cache t.user_id s.cache⟩, ?_, rfl, ?_⟩
    · simp [mark_done, hfil]
    · intro t2 ht2 hid huid
      obtain ⟨t0, ht0, rfl⟩ := List.mem_map.mp ht2
      have hid0 : t0.id = t.id := by
        by_cases hb : rowMatch t.id t.user_id t0 = true <;> simpa [hb] using hid
      have huid0 : t0.user_id = t.user_id := by
        by_cases hb : rowMatch t.id t.user_id t0 = true <;> simpa [hb] using huid
      have hm0 : rowMatch t.id t.user_id t0 = true := by
        simp [rowMatch, hid0, huid0]
      simp [hm0]

/-- Witness for C8: re-marking the single already-done task. -/
theorem C8_witness :
    ∃ r s2, mark_done 3 1 1 ⟨⟨[⟨1, 1, "x", "done", 0, 0⟩], 2⟩, []⟩ =
        (.ok r, s2) ∧
      r.status = "done" ∧
      ∀ t2 ∈ s2.db.tasks, t2.id = 1 → t2.user_id = 1 → t2.status = "done" :=
  C8_theorem ⟨⟨[⟨1, 1, "x", "done", 0, 0⟩], 2⟩, []⟩ 3 ⟨1, 1, "x", "done", 0, 0⟩
    (by decide) rfl

/-! ### C9 -/

theorem bestEffort_eq (r : EmailResult) (x : α) : bestEffort r x = x := by
  cases r <;> rfl

/-- C9: the notification step is skipped when no SMTP host is configured
or no recipient is available; and whatever the transport does — deliver
or raise — each mutation endpoint with its notification step returns
exactly what the bare mutation returns, so a send failure never changes
the mutation's outcome or propagates to the caller. -/
theorem C9_theorem (now tid uid : Nat) (title : String) (cfg : SmtpConfig)
    (em : Option String) (net : SendOutcome) (s : SvcState) :
    ((cfg.host = "" ∨ em.getD "" = "") →
      ∀ subj bdy, send_email_if_configured cfg (em.getD "") subj bdy net = .skipped) ∧
    create_task_full now uid title cfg em net s = create_task now uid title s ∧
    mark_done_full now tid uid cfg em net s = mark_done now tid uid s ∧
    reactivate_full now tid uid cfg em net s = reactivate now tid uid s := by
  refine ⟨?_, ?_, ?_, ?_⟩
  · intro h subj bdy
    rcases h with h | h <;> simp [send_email_if_configured, h]
  · simp [create_task_full, bestEffort_eq]
  · rw [mark_done_full]
    cases hm : mark_done now tid uid s with
    | mk res s1 => cases res <;> simp [bestEffort_eq]
  · rw [reactivate_full]
    cases hm : reactivate now tid uid s with
    | mk res s1 => cases res <;> simp [bestEffort_eq]

/-- Witness for C9: with no SMTP host configured the send is skipped. -/
theorem C9_witness :
    send_email_if_configured ⟨"", 587, "", ""⟩ "" "s" "b" .delivered = .skipped :=
  (C9_theorem 0 0 0 "t" ⟨"", 587, "", ""⟩ none .delivered ⟨⟨[], 1⟩, []⟩).1
    (Or.inl rfl) "s" "b"

/-! ### C10 -/

theorem mapStatus_get (tid uid now : Nat) (st : String) (l : List Task)
    (i : Nat)
    (hi2 : i < (l.map fun t =>
      if rowMatch tid uid t then { t with status := st, updated_at := now }
      else t).length) (hi : i < l.length) :
    (l.map fun t =>
      if rowMatch tid uid t then { t with status := st, updated_at := now }
      else t)[i] =
    (if rowMatch tid uid l[i]
      then { l[i] with status := st, updated_at := now }
      else l[i]) := by
  simp [List.getElem_map]

/-- C10: a successful `mark_done` or `reactivate` keeps the table's
row count and next id, keeps every row's id, user id, title and
creation time (position by position), and leaves every row that does
not match `(task id, caller user id)` entirely unchanged (only the
matched row's status and updated time change). -/
theorem C10_theorem (s : SvcState) (now tid uid : Nat) (r : Task) (s2 : SvcState)
    (h : mark_done now tid uid s = (.ok r, s2) ∨
         reactivate now tid uid s = (.ok r, s2)) :
    s2.db.nextId = s.db.nextId ∧
    s2.db.tasks.length = s.db.tasks.length ∧
    ∀ i (hi : i < s.db.tasks.length) (hi2 : i < s2.db.tasks.length),
      (s2.db.tasks[i].id = s.db.tasks[i].id ∧
       s2.db.tasks[i].user_id = s.db.tasks[i].user_id ∧
       s2.db.tasks[i].title = s.db.tasks[i].title ∧
       s2.db.tasks[i].created_at = s.db.tasks[i].created_at) ∧
      (rowMatch tid uid s.db.tasks[i] = false →
        s2.db.tasks[i] = s.db.tasks[i]) := by
  have hstate : ∃ st : String, s2.db.tasks = s.db.tasks.map (fun t =>
      if rowMatch tid uid t then { t with status := st, updated_at := now }
      else t) ∧ s2.db.nextId = s.db.nextId := by
    rcases h with hm | hm
    · have h2 : (mark_done now tid uid s).2 = s2 := by rw [hm]
      cases hfil : s.db.tasks.filter (rowMatch tid uid) with
      | nil => simp [mark_done, hfil] at hm
      | cons r0 rest =>
        refine ⟨"done", ?_, ?_⟩ <;>
          (rw [← h2]; simp [mark_done, hfil])
    · have h2 : (reactivate now tid uid s).2 = s2 := by rw [hm]
      cases hfil : s.db.tasks.filter (rowMatch tid uid) with
      | nil => simp [reactivate, hfil] at hm
      | cons r0 rest =>
        refine ⟨"open", ?_, ?_⟩ <;>
          (rw [← h2]; simp [reactivate, hfil])
  obtain ⟨st, htasks, hnext⟩ := hstate
  refine ⟨hnext, by rw [htasks]; simp, ?_⟩
  intro i hi hi2
  have hi2m : i < (s.db.tasks.map (fun t =>
      if rowMatch tid uid t then { t with status := st, updated_at := now }
      else t)).length := by simpa using hi
  have hget : s2.db.tasks[i] =
      (if rowMatch tid uid s.db.tasks[i]
        then { s.db.tasks[i] with status := st, updated_at := now }
        else s.db.tasks[i]) := by
    rw [← mapStatus_get tid uid now st s.db.tasks i hi2m hi]
    simp only [htasks]
  rw [hget]
  by_cases hm0 : rowMatch tid uid s.db.tasks[i] = true
  · simp [hm0]
  · simp at hm0
    simp [hm0]

/-- Witness for C10: a successful concrete `mark_done` on a two-row
table changes only the matched row's status and updated time. -/
theorem C10_witness :
    (⟨⟨[⟨1, 1, "a", "done", 0, 7⟩, ⟨2, 1, "b", "open", 0, 0⟩], 3⟩, []⟩ :
        SvcState).db.nextId =
      (⟨⟨[⟨1, 1, "a", "open", 0, 0⟩, ⟨2, 1, "b", "open", 0, 0⟩], 3⟩,
        [(1, ⟨[], 30⟩)]⟩ : SvcState).db.nextId :=
  (C10_theorem
    ⟨⟨[⟨1, 1, "a", "open", 0, 0⟩, ⟨2, 1, "b", "open", 0, 0⟩], 3⟩,
      [(1, ⟨[], 30⟩)]⟩ 7 1 1 ⟨1, 1, "a", "done", 0, 7⟩
    ⟨⟨[⟨1, 1, "a", "done", 0, 7⟩, ⟨2, 1, "b", "open", 0, 0⟩], 3⟩, []⟩
    (Or.inl (by decide))).1
